import Mathlib

set_option maxRecDepth 10000

/-
Verification of the zigbee-to-mqtt bridge core against its specification.

The development shallowly embeds the bridge's Python modules:
  - device_converters.py  (capability registry: loading, identification, validation)
  - mqtt_client.py        (bus gateway: connect validation, publish gating)
  - zigbee_manager.py     (network controller: lifecycle, device/state maps,
                           permit-join window, event handlers)

Python dicts are embedded as association lists with dict-update semantics
(replace in place, or append when the key is new; keys stay unique when
built through these operations).  Python's dynamically typed JSON values are
embedded as the `Value` and `Json` inductive types.  Wall-clock time
(`time.time()`) is embedded as an integer timestamp (the claims only
add and compare times).  Side effects that matter
to the claims (messages handed to the bus, network effects, log lines) are
returned explicitly.
-/

/-- A dynamically typed Python/JSON scalar value, as handled by the state
validation and state store code. -/
inductive Value where
  | vnull
  | vbool (b : Bool)
  | vnum (q : ℚ)
  | vstr (s : String)
  deriving DecidableEq, Repr

/-- The value of a Python float, as consumed by the range checks of
`validate_state_value`: a finite value, positive or negative infinity,
or nan.  A finite value is held as the exact fraction `num / den`
(`den > 0` by construction); the fraction is deliberately left
unreduced so that every operation on it evaluates by kernel reduction.
The embedding idealises CPython's binary64 result as the exact decimal
value: it models neither rounding to 53-bit precision nor overflow of
huge decimal exponents to infinity. -/
inductive PyFloat where
  | finite (num : ℤ) (den : ℕ)
  | inf
  | neginf
  | nan
  deriving DecidableEq, Repr

/-- The characters Python's `float(str)` conversion strips from both
ends (Unicode whitespace, `str.strip()` / `Py_UNICODE_ISSPACE`). -/
def pyIsSpace (c : Char) : Bool :=
  ([0x9, 0xa, 0xb, 0xc, 0xd, 0x1c, 0x1d, 0x1e, 0x1f, 0x20, 0x85,
    0xa0, 0x1680, 0x2000, 0x2001, 0x2002, 0x2003, 0x2004, 0x2005, 0x2006,
    0x2007, 0x2008, 0x2009, 0x200a, 0x2028, 0x2029, 0x202f, 0x205f,
    0x3000] : List ℕ).contains c.toNat

/-- The zero code point of each Unicode decimal-digit block (category
Nd, Unicode 15.0; every block is a contiguous run of ten): Python's
`float()` accepts any Unicode decimal digit wherever a digit may
appear. -/
def pyDigitZeros : List ℕ :=
  [0x30, 0x660, 0x6F0, 0x7C0, 0x966, 0x9E6, 0xA66, 0xAE6, 0xB66, 0xBE6,
   0xC66, 0xCE6, 0xD66, 0xDE6, 0xE50, 0xED0, 0xF20, 0x1040, 0x1090, 0x17E0,
   0x1810, 0x1946, 0x19D0, 0x1A80, 0x1A90, 0x1B50, 0x1BB0, 0x1C40, 0x1C50,
   0xA620, 0xA8D0, 0xA900, 0xA9D0, 0xA9F0, 0xAA50, 0xABF0, 0xFF10,
   0x104A0, 0x10D30, 0x11066, 0x110F0, 0x11136, 0x111D0, 0x112F0, 0x11450,
   0x114D0, 0x11650, 0x116C0, 0x11730, 0x118E0, 0x11950, 0x11C50, 0x11D50,
   0x11DA0, 0x16A60, 0x16AC0, 0x16B50, 0x1D7CE, 0x1D7D8, 0x1D7E2, 0x1D7EC,
   0x1D7F6, 0x1E140, 0x1E2F0, 0x1E950, 0x1FBF0]

/-- The decimal value of a Unicode digit, `none` for a non-digit. -/
def pyDigitVal (c : Char) : Option ℕ :=
  match pyDigitZeros.find? (fun z => z ≤ c.toNat && c.toNat ≤ z + 9) with
  | some z => some (c.toNat - z)
  | none => none

/-- Consume a Python `digitpart` (grammar `digit (["_"] digit)*`):
starting from accumulated value `acc` over `cnt` digits, returns the
accumulated value, the number of digits consumed, and the remaining
characters.  An underscore is consumed only between two digits;
anything else (including a leading, trailing or doubled underscore)
stops the scan there, so ill-placed underscores surface as leftover
input and fail the parse. -/
def digitsLoop : List Char → ℕ → ℕ → ℕ × ℕ × List Char
  | [], acc, cnt => (acc, cnt, [])
  | c :: rest, acc, cnt =>
      match pyDigitVal c with
      | some d => digitsLoop rest (acc * 10 + d) (cnt + 1)
      | none =>
          if c = '_' ∧ cnt ≠ 0 then
            match rest with
            | c2 :: rest2 =>
                match pyDigitVal c2 with
                | some d => digitsLoop rest2 (acc * 10 + d) (cnt + 1)
                | none => (acc, cnt, c :: rest)
            | [] => (acc, cnt, c :: rest)
          else (acc, cnt, c :: rest)

/-- An optional leading sign: whether the sign is negative, and the
remaining characters. -/
def pySign : List Char → Bool × List Char
  | '-' :: r => (true, r)
  | '+' :: r => (false, r)
  | r => (false, r)

/-- Python `float(s)` on a string: strips Unicode whitespace from both
ends, then parses `[sign] (digitpart ["." [digitpart]] | "."
digitpart) [("e"|"E") [sign] digitpart]` — with single underscores
allowed between digits and any Unicode decimal digits — or a
case-insensitive `inf` / `infinity` / `nan`.  `none` is `float`
raising `ValueError`. -/
def pyFloatOfString (s : String) : Option PyFloat :=
  let cs0 := (((s.toList.dropWhile pyIsSpace).reverse).dropWhile pyIsSpace).reverse
  let sgn := pySign cs0
  let neg := sgn.1
  let cs1 := sgn.2
  let low := cs1.map Char.toLower
  if low = ['i', 'n', 'f'] ∨ low = ['i', 'n', 'f', 'i', 'n', 'i', 't', 'y'] then
    some (if neg then .neginf else .inf)
  else if low = ['n', 'a', 'n'] then
    some .nan
  else
    let ipr := digitsLoop cs1 0 0
    let ip := ipr.1
    let ipCnt := ipr.2.1
    let fpr : ℕ × ℕ × List Char :=
      match ipr.2.2 with
      | '.' :: r => digitsLoop r 0 0
      | r => (0, 0, r)
    let fp := fpr.1
    let fpCnt := fpr.2.1
    let mantNum : ℤ := (if neg then -1 else 1) * ((ip * 10 ^ fpCnt + fp : ℕ) : ℤ)
    match fpr.2.2 with
    | [] =>
        if ipCnt + fpCnt = 0 then none
        else some (.finite mantNum (10 ^ fpCnt))
    | e :: r =>
        if e = 'e' ∨ e = 'E' then
          let es := pySign r
          let er := digitsLoop es.2 0 0
          if ipCnt + fpCnt = 0 ∨ er.2.1 = 0 ∨ ¬ er.2.2.isEmpty then none
          else if es.1 then some (.finite mantNum (10 ^ (fpCnt + er.1)))
          else some (.finite (mantNum * ((10 ^ er.1 : ℕ) : ℤ)) (10 ^ fpCnt))
        else none

/-- Python `str.strip()` with no argument: remove leading and trailing
(Unicode) whitespace. -/
def pyStrip (s : String) : String :=
  String.mk (((s.toList.dropWhile pyIsSpace).reverse.dropWhile
    pyIsSpace).reverse)

/-- Python `float(value)`: numbers pass through (a JSON rational as its
exact fraction), booleans coerce to 0/1, strings are parsed, `None`
raises `TypeError` (embedded as `none`). -/
def pyFloat : Value → Option PyFloat
  | .vnull => none
  | .vbool b => some (.finite (if b then 1 else 0) 1)
  | .vnum q => some (.finite q.num q.den)
  | .vstr s => pyFloatOfString s

/-- The source's `val >= min_val` (`device_converters.py:109`) between
a float value and a finite bound: a finite value compares as the exact
fraction (by cross-multiplication, `den > 0` by construction), `inf`
satisfies any lower bound, `-inf` none, and any comparison with nan is
false. -/
def PyFloat.geQ : PyFloat → ℚ → Bool
  | .finite num den, lo => decide (lo.num * (den : ℤ) ≤ num * (lo.den : ℤ))
  | .inf, _ => true
  | .neginf, _ => false
  | .nan, _ => false

/-- The source's `val <= max_val` (`device_converters.py:110`);
mirror image of `PyFloat.geQ`. -/
def PyFloat.leQ : PyFloat → ℚ → Bool
  | .finite num den, hi => decide (num * (hi.den : ℤ) ≤ hi.num * (den : ℤ))
  | .inf, _ => false
  | .neginf, _ => true
  | .nan, _ => false

/-- On a finite float the embedded lower-bound check is the exact
rational comparison. -/
theorem geQ_finite_iff (num : ℤ) (den : ℕ) (hden : 0 < den) (lo : ℚ) :
    PyFloat.geQ (.finite num den) lo = true ↔ lo ≤ (num : ℚ) / (den : ℚ) := by
  have hdQ : (0:ℚ) < (den:ℚ) := by exact_mod_cast hden
  have hlQ : (0:ℚ) < (lo.den:ℚ) := by exact_mod_cast lo.pos
  have e0 : (lo.num : ℚ) = lo * (lo.den : ℚ) :=
    (div_eq_iff (ne_of_gt hlQ)).mp (Rat.num_div_den lo)
  simp only [PyFloat.geQ, decide_eq_true_eq]
  rw [le_div_iff₀ hdQ]
  rw [show lo * (den:ℚ) ≤ (num:ℚ) ↔ lo * (den:ℚ) * (lo.den:ℚ) ≤ (num:ℚ) * (lo.den:ℚ) from
    (mul_le_mul_right hlQ).symm]
  constructor
  · intro hh
    have h2 : ((lo.num * den : ℤ) : ℚ) ≤ ((num * lo.den : ℤ) : ℚ) := by exact_mod_cast hh
    push_cast at h2
    calc lo * (den:ℚ) * (lo.den:ℚ) = (lo.num : ℚ) * (den:ℚ) := by rw [e0]; ring
    _ ≤ (num : ℚ) * (lo.den:ℚ) := h2
  · intro hh
    have h2 : (lo.num : ℚ) * (den:ℚ) ≤ (num : ℚ) * (lo.den:ℚ) := by
      calc (lo.num : ℚ) * (den:ℚ) = lo * (den:ℚ) * (lo.den:ℚ) := by rw [e0]; ring
      _ ≤ (num : ℚ) * (lo.den:ℚ) := hh
    exact_mod_cast h2

/-- On a finite float the embedded upper-bound check is the exact
rational comparison. -/
theorem leQ_finite_iff (num : ℤ) (den : ℕ) (hden : 0 < den) (hi : ℚ) :
    PyFloat.leQ (.finite num den) hi = true ↔ (num : ℚ) / (den : ℚ) ≤ hi := by
  have hdQ : (0:ℚ) < (den:ℚ) := by exact_mod_cast hden
  have hlQ : (0:ℚ) < (hi.den:ℚ) := by exact_mod_cast hi.pos
  have e0 : (hi.num : ℚ) = hi * (hi.den : ℚ) :=
    (div_eq_iff (ne_of_gt hlQ)).mp (Rat.num_div_den hi)
  simp only [PyFloat.leQ, decide_eq_true_eq]
  rw [div_le_iff₀ hdQ]
  rw [show (num:ℚ) ≤ hi * (den:ℚ) ↔ (num:ℚ) * (hi.den:ℚ) ≤ hi * (den:ℚ) * (hi.den:ℚ) from
    (mul_le_mul_right hlQ).symm]
  constructor
  · intro hh
    have h2 : ((num * hi.den : ℤ) : ℚ) ≤ ((hi.num * den : ℤ) : ℚ) := by exact_mod_cast hh
    push_cast at h2
    calc (num:ℚ) * (hi.den:ℚ) ≤ (hi.num : ℚ) * (den:ℚ) := h2
    _ = hi * (den:ℚ) * (hi.den:ℚ) := by rw [e0]; ring
  · intro hh
    have h2 : (num : ℚ) * (hi.den:ℚ) ≤ (hi.num : ℚ) * (den:ℚ) := by
      calc (num : ℚ) * (hi.den:ℚ) ≤ hi * (den:ℚ) * (hi.den:ℚ) := hh
      _ = (hi.num : ℚ) * (den:ℚ) := by rw [e0]; ring
    exact_mod_cast h2

/-- Python `==` between scalar values: strings compare by content, numbers
and booleans compare numerically (Python's `True == 1`), values of
unrelated types are unequal. -/
def pyEq : Value → Value → Bool
  | .vstr a, .vstr b => a == b
  | .vnull, .vnull => true
  | .vnum a, .vnum b => a == b
  | .vnum a, .vbool b => a == (if b then (1 : ℚ) else 0)
  | .vbool a, .vnum b => (if a then (1 : ℚ) else 0) == b
  | .vbool a, .vbool b => a == b
  | _, _ => false

/-- A JSON document, as published on the bus. -/
inductive Json where
  | null
  | bool (b : Bool)
  | num (q : ℚ)
  | str (s : String)
  | arr (xs : List Json)
  | obj (fields : List (String × Json))

/-- Embed a scalar `Value` into `Json`. -/
def valueToJson : Value → Json
  | .vnull => .null
  | .vbool b => .bool b
  | .vnum q => .num q
  | .vstr s => .str s

/-- Top-level keys of a JSON object (empty for non-objects). -/
def Json.keys : Json → List String
  | .obj fs => fs.map Prod.fst
  | _ => []

/- Association-list operations embedding Python `dict`. -/

/-- `d.get(k)` / `d[k]` lookup. -/
def lookupA {α : Type} : List (String × α) → String → Option α
  | [], _ => none
  | p :: rest, k => if p.1 == k then some p.2 else lookupA rest k

/-- `k in d`. -/
def containsKey {α : Type} (xs : List (String × α)) (k : String) : Bool :=
  xs.any (fun p => p.1 == k)

/-- `d[k] = v`: replace the entry in place when the key is present,
append it otherwise. -/
def insertA {α : Type} : List (String × α) → String → α → List (String × α)
  | [], k, v => [(k, v)]
  | p :: rest, k, v => if p.1 == k then (k, v) :: rest else p :: insertA rest k v

/-- `del d[k]` (keys built by `insertA` are unique, so filtering every
entry with the key is the same as deleting the single one). -/
def eraseA {α : Type} (xs : List (String × α)) (k : String) : List (String × α) :=
  xs.filter (fun p => !(p.1 == k))

/-- An accessor for a field of a JSON object (`null` when absent or when
the document is not an object). -/
def Json.getField : Json → String → Json
  | .obj fs, k => (lookupA fs k).getD .null
  | _, _ => .null

theorem containsKey_nil {α : Type} (j : String) :
    containsKey ([] : List (String × α)) j = false := rfl

theorem containsKey_cons {α : Type} (p : String × α) (xs : List (String × α)) (j : String) :
    containsKey (p :: xs) j = (p.1 == j || containsKey xs j) := rfl

theorem eraseA_cons {α : Type} (p : String × α) (xs : List (String × α)) (k : String) :
    eraseA (p :: xs) k = if p.1 = k then eraseA xs k else p :: eraseA xs k := by
  by_cases h : p.1 = k <;> simp [eraseA, List.filter_cons, h]

theorem lookupA_insertA_self {α : Type} (xs : List (String × α)) (k : String) (v : α) :
    lookupA (insertA xs k v) k = some v := by
  induction xs with
  | nil => simp [insertA, lookupA]
  | cons p rest ih =>
      by_cases h : p.1 = k
      · simp [insertA, lookupA, h]
      · simp [insertA, lookupA, h, ih]

theorem lookupA_insertA_ne {α : Type} (xs : List (String × α)) (k j : String) (v : α)
    (hne : j ≠ k) : lookupA (insertA xs k v) j = lookupA xs j := by
  induction xs with
  | nil => simp [insertA, lookupA, Ne.symm hne]
  | cons p rest ih =>
      by_cases h : p.1 = k
      · subst h
        simp [insertA, lookupA, Ne.symm hne]
      · simp [insertA, lookupA, h, ih]

theorem containsKey_insertA_iff {α : Type} (xs : List (String × α)) (k j : String) (v : α) :
    containsKey (insertA xs k v) j = true ↔ (j = k ∨ containsKey xs j = true) := by
  induction xs with
  | nil =>
      simp [insertA, containsKey_cons, containsKey_nil]
      exact eq_comm
  | cons p rest ih =>
      by_cases h : p.1 = k
      · subst h
        simp only [insertA, beq_self_eq_true, if_true, containsKey_cons,
          Bool.or_eq_true, beq_iff_eq]
        constructor
        · rintro (rfl | hr)
          · exact Or.inl rfl
          · exact Or.inr (Or.inr hr)
        · rintro (rfl | rfl | hr)
          · exact Or.inl rfl
          · exact Or.inl rfl
          · exact Or.inr hr
      · simp only [insertA, beq_iff_eq, h, if_false, containsKey_cons,
          Bool.or_eq_true, ih]
        tauto

theorem containsKey_eraseA_iff {α : Type} (xs : List (String × α)) (k j : String) :
    containsKey (eraseA xs k) j = true ↔ (j ≠ k ∧ containsKey xs j = true) := by
  induction xs with
  | nil => simp [eraseA, containsKey_nil]
  | cons p rest ih =>
      rw [eraseA_cons]
      by_cases h : p.1 = k
      · simp only [h, if_true, ih, containsKey_cons, Bool.or_eq_true, beq_iff_eq]
        subst h
        constructor
        · rintro ⟨hjk, hr⟩
          exact ⟨hjk, Or.inr hr⟩
        · rintro ⟨hjk, rfl | hr⟩
          · exact absurd rfl hjk
          · exact ⟨hjk, hr⟩
      · simp only [h, if_false, containsKey_cons, Bool.or_eq_true, beq_iff_eq, ih]
        constructor
        · rintro (rfl | ⟨hjk, hr⟩)
          · exact ⟨fun hpk => h hpk, Or.inl rfl⟩
          · exact ⟨hjk, Or.inr hr⟩
        · rintro ⟨hjk, rfl | hr⟩
          · exact Or.inl rfl
          · exact Or.inr ⟨hjk, hr⟩

theorem find?_first {α : Type} (p : α → Bool) (xs : List α) (x : α)
    (h : xs.find? p = some x) :
    ∃ i, ∃ hi : i < xs.length, xs.get ⟨i, hi⟩ = x ∧ p x = true ∧
      ∀ j, ∀ hj : j < xs.length, j < i → p (xs.get ⟨j, hj⟩) = false := by
  induction xs with
  | nil => simp [List.find?] at h
  | cons a rest ih =>
      by_cases ha : p a = true
      · rw [List.find?_cons_of_pos _ ha] at h
        obtain rfl : a = x := by injection h
        exact ⟨0, by simp, rfl, ha, fun j hj hj0 => absurd hj0 (Nat.not_lt_zero j)⟩
      · have ha' : p a = false := by
          cases hb : p a
          · rfl
          · exact absurd hb ha
        rw [List.find?_cons_of_neg _ (by simp [ha'])] at h
        obtain ⟨i, hi, hget, hp, hfirst⟩ := ih h
        refine ⟨i + 1, by simpa using Nat.succ_lt_succ hi, by simpa using hget, hp, ?_⟩
        intro j hj hji
        cases j with
        | zero => simpa using ha'
        | succ j' =>
            have hj' : j' < rest.length := by simpa using hj
            have := hfirst j' hj' (by omega)
            simpa using this

/- ===== device_converters.py ===== -/

namespace DeviceConverters

/-- One entry of a capability definition's `exposes` list
(`device_converters.py`, sample at lines 41-57): a closed `type` tag
(`"binary"` or `"numeric"`), the state name, the wire property key, an
access bitmask, the allowed `values` of a binary property, and the
optional inclusive bounds of a numeric property.  An absent JSON key is
embedded as the default field value used by the corresponding
`dict.get` call in the source. -/
structure ExposedProperty where
  type : String
  name : String
  property : String := ""
  access : ℕ := 0
  values : List Value := []
  value_min : Option ℚ := none
  value_max : Option ℚ := none
  deriving DecidableEq, Repr

/-- A parsed capability definition file
(`{model_id, vendor, description, supports, exposes}`).  `model_id` is
optional because `load_definitions` reads it with `dict.get`. -/
structure CapabilityDefinition where
  model_id : Option String := none
  vendor : String := ""
  description : String := ""
  supports : List String := []
  exposes : List ExposedProperty := []
  deriving DecidableEq, Repr

/-- Severity of a log line. -/
inductive LogLevel where
  | error
  | warning
  | info
  | debug
  deriving DecidableEq, Repr

/-- A log line: severity and message. -/
abbrev LogEntry := LogLevel × String

/-- A file found by `definitions_dir.glob("*.json")`: either its content
fails to open/parse (the per-file `except` path), or it parses to a
JSON object embedded as a `CapabilityDefinition`. -/
inductive DefFile where
  | malformed (path : String)
  | parsed (path : String) (d : CapabilityDefinition)

/-- `open(file)` followed by `json.load(f)`: raises (embedded as
`Except.error`) exactly on a malformed file. -/
def readJson : DefFile → Except String CapabilityDefinition
  | .malformed path => .error ("Error loading definition file " ++ path)
  | .parsed _ d => .ok d

/-- One iteration of the `load_definitions` loop body applied to the
accumulated `(definitions, log)` pair: a raised per-file error is caught
and logged; a parsed definition is stored and logged only when its
`model_id` is truthy (present and non-empty), otherwise the file is
skipped with no log line. -/
def loadStep (acc : List (String × CapabilityDefinition) × List LogEntry)
    (file : DefFile) : List (String × CapabilityDefinition) × List LogEntry :=
  match readJson file with
  | .error e => (acc.1, acc.2 ++ [(.error, e)])
  | .ok d =>
      match d.model_id with
      | some m =>
          if m.isEmpty then acc
          else (insertA acc.1 m d, acc.2 ++ [(.info, "Loaded device definition for " ++ m)])
      | none => acc

/-- `DeviceConverters.load_definitions` (lines 12-32): best-effort load
of every definitions file into the registry, returning the registry and
the log.  Every exception path of the source is caught (per-file errors
by the inner handler, anything else by the outer handler), which is why
the embedding is a total function rather than an `Except`. -/
def load_definitions (files : List DefFile) :
    List (String × CapabilityDefinition) × List LogEntry :=
  files.foldl loadStep ([], [])

/-- `DeviceConverters.identify_device` (lines 63-75): exact model-id
lookup first; otherwise, with a truthy manufacturer, the first
definition (in registry order) whose vendor matches case-insensitively;
otherwise `None`. -/
def identify_device (definitions : List (String × CapabilityDefinition))
    (model_id : String) (manufacturer : Option String) : Option CapabilityDefinition :=
  match lookupA definitions model_id with
  | some d => some d
  | none =>
      match manufacturer with
      | some m =>
          if m.isEmpty then none
          else (definitions.find? (fun p => p.2.vendor.toLower == m.toLower)).map Prod.snd
      | none => none

/-- `DeviceConverters.get_state_definition` (lines 87-94): the first
exposed property of the model's definition carrying the given name. -/
def get_state_definition (definitions : List (String × CapabilityDefinition))
    (model_id state_name : String) : Option ExposedProperty :=
  match lookupA definitions model_id with
  | some d => d.exposes.find? (fun e => e.name == state_name)
  | none => none

/-- `DeviceConverters.validate_state_value` (lines 96-113): binary
values must be `in` the allowed list, numeric values must `float`-parse
and satisfy whichever inclusive bounds are present; everything else is
invalid. -/
def validate_state_value (definitions : List (String × CapabilityDefinition))
    (model_id state_name : String) (value : Value) : Bool :=
  match get_state_definition definitions model_id state_name with
  | none => false
  | some state_def =>
      if state_def.type == "binary" then
        state_def.values.any (fun v => pyEq value v)
      else if state_def.type == "numeric" then
        match pyFloat value with
        | none => false
        | some val =>
            (match state_def.value_min with
             | none => true
             | some min_val => val.geQ min_val) &&
            (match state_def.value_max with
             | none => true
             | some max_val => val.leQ max_val)
      else false

end DeviceConverters

/- ===== mqtt_client.py ===== -/

namespace MQTTClient

/-- The values read out of `config_manager.get_mqtt_config()` by
`MQTTClient.connect`, with the source's defaults for absent keys. -/
structure MqttConfig where
  broker : String := "6f66b254393d4dea9f6ed5d169c03469.s1.eu.hivemq.cloud"
  port : ℤ := 443
  username : String := ""
  password : String := ""
  deriving DecidableEq, Repr

/-- The exception raised out of `MQTTClient.connect` (re-raised by its
outer handler): Python class plus message. -/
inductive PyErr where
  | valueError (msg : String)
  | timeoutError (msg : String)
  deriving DecidableEq, Repr

/-- Network-touching actions taken by `connect`, in order. -/
inductive NetEffect where
  | dnsLookup (host : String)
  | tcpConnect (host : String) (port : ℤ)
  deriving DecidableEq, Repr

/-- `MQTTClient.connect` (lines 22-96), with the two external outcomes
as parameters: `dnsOk` is whether `socket.gethostbyname` succeeds, and
`connectedWithinTimeout` is whether the `on_connect` callback sets the
connected flag inside the 5-second polling window.  Returns the
call's result (`Except` for a raised error) together with the network
effects performed. -/
def connect (cfg : MqttConfig) (dnsOk connectedWithinTimeout : Bool) :
    Except PyErr Bool × List NetEffect :=
  let broker := pyStrip cfg.broker
  let port := cfg.port
  if broker.isEmpty then
    (.error (.valueError "MQTT broker address not configured"), [])
  else if !(1024 ≤ port && port ≤ 65535) then
    (.error (.valueError ("Invalid MQTT port: " ++ toString port)), [])
  else if !dnsOk then
    (.error (.valueError ("Failed to resolve broker hostname: " ++ broker)),
     [.dnsLookup broker])
  else if connectedWithinTimeout then
    (.ok true, [.dnsLookup broker, .tcpConnect broker port])
  else
    (.error (.timeoutError "Connection timeout after 5 seconds"),
     [.dnsLookup broker, .tcpConnect broker port])

/-- `mqtt.MQTT_ERR_SUCCESS`. -/
def MQTT_ERR_SUCCESS : ℕ := 0

/-- `MQTTClient.publish` (lines 108-133), with the paho send result
code `rc` as a parameter: returns the call's result together with the
messages handed to the transport client. -/
def publish (connected : Bool) (rc : ℕ) (topic : String) (message : Json) :
    Bool × List (String × Json) :=
  if !connected then (false, [])
  else
    let sent := [(topic, message)]
    if rc ≠ MQTT_ERR_SUCCESS then (false, sent)
    else (true, sent)

end MQTTClient

/- ===== zigbee_manager.py ===== -/

open DeviceConverters in
/-- One entry of `ZigbeeManager.devices` as written by
`_handle_device_joined` (lines 187-193). -/
structure DeviceInfo where
  model : String
  manufacturer : String
  definition : Option CapabilityDefinition
  status : String
  joined_at : ℤ
  deriving DecidableEq, Repr

open DeviceConverters in
/-- The mutable state of a `ZigbeeManager` (constructor, lines 14-26),
restricted to the attributes the claims are about: the device map, the
per-device state map, the connected flag, the permit-join window, the
capability registry held by `self.converters`, the radio stack's own
device map `self.app.devices` (keys only), and the messages the manager
has handed to `mqtt_client.publish` (topic and JSON body; that call
never raises, so recording it is faithful). -/
structure ZigbeeManager where
  devices : List (String × DeviceInfo) := []
  device_states : List (String × List (String × Value)) := []
  connected : Bool := false
  permit_join_active : Bool := false
  permit_join_end_time : ℤ := 0
  definitions : List (String × CapabilityDefinition) := []
  app_devices : List String := []
  published : List (String × Json) := []

namespace ZigbeeManager

open DeviceConverters

/-- Python `x if x else "unknown"` on an optional string attribute
(string truthiness: `None` and `""` are both falsy). -/
def orUnknown : Option String → String
  | some s => if s.isEmpty then "unknown" else s
  | none => "unknown"

/-- `definition.get('supports', []) if definition else []`
(line 208), as a JSON array. -/
def supportedFeatures : Option CapabilityDefinition → Json
  | some d => .arr (d.supports.map .str)
  | none => .arr []

/-- Initial per-device state built at join time (lines 196-199): one
`None` entry per exposed property of the definition, empty without a
definition. -/
def initialStates : Option CapabilityDefinition → List (String × Value)
  | none => []
  | some d => d.exposes.foldl (fun acc e => insertA acc e.name Value.vnull) []

/-- `ZigbeeManager.start` (lines 64-80).  `initSuccess` is the value
returned by `_init_controller` (lines 28-62), which catches every
initialization exception and returns `False`.  In the source the
`return True` statement sits outside the `if success:` block, so the
method returns `True` on both paths; the trailing `return False` is
reachable only through the `except` handler.  The nested best-effort
MQTT connect attempt on the success path is wrapped in its own
try/except and touches only the MQTT client, so it is elided. -/
def start (initSuccess : Bool) (st : ZigbeeManager) : Bool × ZigbeeManager :=
  if initSuccess then
    (true, { st with connected := true })
  else
    (true, st)

/-- `ZigbeeManager.permit_join` (lines 105-135).  `now` is
`time.time()` at the call; `radioOk` is the value returned by
`_permit_join(duration)` (lines 97-103), which catches radio errors and
returns `False`. -/
def permit_join (st : ZigbeeManager) (now duration : ℤ) (radioOk : Bool) :
    Bool × ZigbeeManager :=
  if !st.connected then (false, st)
  else if radioOk then
    (true, { st with
      permit_join_active := true,
      permit_join_end_time := now + duration,
      published := st.published ++
        [("zigbee2mqtt/bridge/request/permit_join",
          Json.obj [("value", .bool true), ("time", .num (duration : ℚ))])] })
  else (false, st)

/-- `ZigbeeManager._disable_permit_join` (lines 137-146), the deferred
close callback scheduled by `permit_join`.  The active flag is cleared
first; `radioOk` is whether the subsequent radio call completes (if it
raises, the notification publish is skipped but the flag stays
cleared). -/
def disable_permit_join (st : ZigbeeManager) (radioOk : Bool) : ZigbeeManager :=
  if st.permit_join_active then
    let st1 := { st with permit_join_active := false }
    if radioOk then
      { st1 with published := st1.published ++
          [("zigbee2mqtt/bridge/request/permit_join", Json.obj [("value", .bool false)])] }
    else st1
  else st

/-- `ZigbeeManager.is_permit_join_active` (lines 148-156): lazy
self-expiry of the permit-join window. -/
def is_permit_join_active (st : ZigbeeManager) (now : ℤ) : Bool × ZigbeeManager :=
  if st.permit_join_active then
    if now > st.permit_join_end_time then
      (false, { st with permit_join_active := false })
    else (true, st)
  else (false, st)

/-- `ZigbeeManager._handle_device_joined` (lines 175-225): records the
device and its fresh state map under the lock and publishes the
`device_joined` event. -/
def handle_device_joined (st : ZigbeeManager) (ieee : String)
    (model manufacturer : Option String) (now : ℤ) : ZigbeeManager :=
  let device_id := ieee
  let model_id := orUnknown model
  let manu := orUnknown manufacturer
  let definition := identify_device st.definitions model_id (some manu)
  let mqtt_message := Json.obj
    [("type", .str "device_joined"),
     ("device", Json.obj
       [("ieee_address", .str device_id),
        ("model", .str model_id),
        ("manufacturer", .str manu),
        ("supported_features", supportedFeatures definition)])]
  { st with
    devices := insertA st.devices device_id
      { model := model_id, manufacturer := manu, definition := definition,
        status := "Joining", joined_at := now },
    device_states := insertA st.device_states device_id (initialStates definition),
    published := st.published ++
      [("zigbee2mqtt/bridge/event/device_joined", mqtt_message)] }

/-- `ZigbeeManager.update_device_state` (lines 227-251): unknown device
or failed validation raises `ValueError`, caught by the handler, which
returns `False`; otherwise the value is stored under the lock, the
state update is published, and the call returns `True`. -/
def update_device_state (st : ZigbeeManager) (device_id state_name : String)
    (value : Value) : Bool × ZigbeeManager :=
  match lookupA st.devices device_id with
  | none => (false, st)
  | some device =>
      if validate_state_value st.definitions device.model state_name value then
        let states1 :=
          if containsKey st.device_states device_id then st.device_states
          else insertA st.device_states device_id []
        let inner := (lookupA states1 device_id).getD []
        (true, { st with
          device_states := insertA states1 device_id (insertA inner state_name value),
          published := st.published ++
            [("zigbee2mqtt/" ++ device_id ++ "/state",
              Json.obj [(state_name, valueToJson value)])] })
      else (false, st)

/-- `ZigbeeManager.get_device_state` (lines 253-256). -/
def get_device_state (st : ZigbeeManager) (device_id : String) : List (String × Value) :=
  (lookupA st.device_states device_id).getD []

/-- `ZigbeeManager._handle_device_leave` (lines 258-272): deletes both
map entries under the lock and publishes the `device_leave` event. -/
def handle_device_leave (st : ZigbeeManager) (ieee : String) : ZigbeeManager :=
  let device_id := ieee
  if containsKey st.devices device_id then
    { st with
      devices := eraseA st.devices device_id,
      device_states := eraseA st.device_states device_id,
      published := st.published ++
        [("zigbee2mqtt/bridge/event/device_leave",
          Json.obj [("ieee_address", .str device_id)])] }
  else st

/-- `ZigbeeManager.remove_device` (lines 274-304).  `leaveOk` is
whether `device.leave()` completes; if it raises, the handler catches
the exception before any map mutation and the call returns `False`.
The same handler also covers an unparsable address, again before any
mutation. -/
def remove_device (st : ZigbeeManager) (ieee : String) (leaveOk : Bool) :
    Bool × ZigbeeManager :=
  if st.app_devices.contains ieee then
    if leaveOk then
      (true, { st with
        app_devices := st.app_devices.filter (fun x => !(x == ieee)),
        devices := eraseA st.devices ieee,
        device_states := eraseA st.device_states ieee,
        published := st.published ++
          [("zigbee2mqtt/bridge/event/device_removed",
            Json.obj [("ieee_address", .str ieee)])] })
    else (false, st)
  else (false, st)

/-- `self.devices[device_id]['status'] = 'Online'` (line 314). -/
def setStatus (ds : List (String × DeviceInfo)) (device_id status : String) :
    List (String × DeviceInfo) :=
  ds.map (fun p => if p.1 == device_id then (p.1, { p.2 with status := status }) else p)

/-- `ZigbeeManager._handle_device_relays` (lines 306-333): the
`device_announce` branch marks a known device online and publishes the
announce event; the `attribute_updated` branch republishes the raw
attribute. -/
def handle_device_relays (st : ZigbeeManager) (message_type ieee : String)
    (attr value : Json) : ZigbeeManager :=
  if message_type == "device_announce" then
    let device_id := ieee
    if containsKey st.devices device_id then
      { st with
        devices := setStatus st.devices device_id "Online",
        published := st.published ++
          [("zigbee2mqtt/bridge/event/device_announce",
            Json.obj [("ieee_address", .str device_id), ("status", .str "online")])] }
    else st
  else if message_type == "attribute_updated" then
    { st with published := st.published ++
        [("zigbee2mqtt/" ++ ieee,
          Json.obj [("attribute", attr), ("value", value)])] }
  else st

/-- The device-map / state-map consistency invariant of the data model:
an id is a key of `devices` exactly when it is a key of
`device_states`. -/
def mapsConsistent (st : ZigbeeManager) : Prop :=
  ∀ i : String, containsKey st.devices i = true ↔ containsKey st.device_states i = true

/-- Topic, top-level keys and keys of the nested `device` object of a
published message. -/
def publishedShape (p : String × Json) : String × List String × List String :=
  (p.1, Json.keys p.2, Json.keys (Json.getField p.2 "device"))

/-- The first message handed to the bus (placeholder if none). -/
def firstPublished (st : ZigbeeManager) : String × Json :=
  st.published.headD ("", Json.null)

end ZigbeeManager

/- ===== Claims ===== -/

/-- C1: the claim states that when controller initialization fails,
`start` returns false with the connected flag left false.  The code
keeps the connected flag false on that path, but the `return True` of
`start` sits outside the `if success:` block, so `start` returns `True`
even though `_init_controller` reported failure: evaluated at a fresh
manager whose radio-stack init step fails, `start` returns true while
`connected` stays false. -/
theorem C1_start_init_failure_returns_true :
    (ZigbeeManager.start false {}).1 = true ∧
    (ZigbeeManager.start false {}).2.connected = false := by
  exact ⟨rfl, rfl⟩

/-- C7: `publish` on a disconnected gateway returns false with nothing
handed to the transport; on a connected gateway it hands exactly the
serialized message to the transport and returns true exactly when the
send result code is `MQTT_ERR_SUCCESS`. -/
theorem C7_publish_gating (connected : Bool) (rc : ℕ) (topic : String) (message : Json) :
    (connected = false →
      MQTTClient.publish connected rc topic message = (false, [])) ∧
    (connected = true →
      (MQTTClient.publish connected rc topic message).2 = [(topic, message)] ∧
      ((MQTTClient.publish connected rc topic message).1 = true ↔
        rc = MQTTClient.MQTT_ERR_SUCCESS)) := by
  constructor
  · rintro rfl
    rfl
  · rintro rfl
    constructor
    · by_cases h : rc = MQTTClient.MQTT_ERR_SUCCESS <;>
        simp [MQTTClient.publish, h]
    · by_cases h : rc = MQTTClient.MQTT_ERR_SUCCESS <;>
        simp [MQTTClient.publish, h]

theorem C7_publish_gating_witness :
    MQTTClient.publish false 0 "zigbee2mqtt/0x1/state" (Json.str "ON") = (false, []) ∧
    (MQTTClient.publish true 0 "zigbee2mqtt/0x1/state" (Json.str "ON")).2 =
      [("zigbee2mqtt/0x1/state", Json.str "ON")] :=
  ⟨(C7_publish_gating false 0 "zigbee2mqtt/0x1/state" (Json.str "ON")).1 rfl,
   ((C7_publish_gating true 0 "zigbee2mqtt/0x1/state" (Json.str "ON")).2 rfl).1⟩

/-- C8: `connect` rejects an empty broker host or a port outside
`[1024, 65535]` with a configuration `ValueError` before any hostname
resolution or network effect; with valid configuration, a resolution
failure raises a `ValueError` naming the host, which is a different
error from the `TimeoutError` raised when the connected flag is not
observed within the 5-second window. -/
theorem C8_connect_validation (cfg : MQTTClient.MqttConfig) (dnsOk within : Bool) :
    ((pyStrip cfg.broker).isEmpty = true →
      MQTTClient.connect cfg dnsOk within =
        (.error (.valueError "MQTT broker address not configured"), [])) ∧
    (¬ (1024 ≤ cfg.port ∧ cfg.port ≤ 65535) →
      (MQTTClient.connect cfg dnsOk within).2 = [] ∧
      ∃ msg, (MQTTClient.connect cfg dnsOk within).1 =
        .error (.valueError msg)) ∧
    ((pyStrip cfg.broker).isEmpty = false → 1024 ≤ cfg.port → cfg.port ≤ 65535 →
      dnsOk = false →
      (MQTTClient.connect cfg dnsOk within).1 =
        .error (.valueError ("Failed to resolve broker hostname: " ++ pyStrip cfg.broker))) ∧
    ((pyStrip cfg.broker).isEmpty = false → 1024 ≤ cfg.port → cfg.port ≤ 65535 →
      dnsOk = true → within = false →
      (MQTTClient.connect cfg dnsOk within).1 =
        .error (.timeoutError "Connection timeout after 5 seconds")) ∧
    (∀ m1 m2 : String,
      MQTTClient.PyErr.valueError m1 ≠ MQTTClient.PyErr.timeoutError m2) := by
  refine ⟨?_, ?_, ?_, ?_, ?_⟩
  · intro h
    simp [MQTTClient.connect, h]
  · intro h
    by_cases hb : (pyStrip cfg.broker).isEmpty
    · exact ⟨by simp [MQTTClient.connect, hb],
        "MQTT broker address not configured", by simp [MQTTClient.connect, hb]⟩
    · have hp : cfg.port < 1024 ∨ 65535 < cfg.port := by omega
      exact ⟨by simp [MQTTClient.connect, hb, hp],
        "Invalid MQTT port: " ++ toString cfg.port, by simp [MQTTClient.connect, hb, hp]⟩
  · intro hb h1 h2 hdns
    subst hdns
    simp [MQTTClient.connect, hb, h1, h2]
  · intro hb h1 h2 hdns hw
    subst hdns; subst hw
    simp [MQTTClient.connect, hb, h1, h2]
  · intro m1 m2 h
    exact MQTTClient.PyErr.noConfusion h

theorem C8_connect_validation_witness :
    MQTTClient.connect { broker := "  " } true true =
      (.error (.valueError "MQTT broker address not configured"), []) ∧
    (MQTTClient.connect { broker := "test.local", port := 1883 } false true).1 =
      .error (.valueError "Failed to resolve broker hostname: test.local") ∧
    (MQTTClient.connect { broker := "test.local", port := 1883 } true false).1 =
      .error (.timeoutError "Connection timeout after 5 seconds") :=
  ⟨(C8_connect_validation { broker := "  " } true true).1 (by decide),
   (C8_connect_validation { broker := "test.local", port := 1883 } false true).2.2.1
     (by decide) (by decide) (by decide) rfl,
   (C8_connect_validation { broker := "test.local", port := 1883 } true false).2.2.2.1
     (by decide) (by decide) (by decide) rfl rfl⟩

/-- C10: `load_definitions` is total (both its exception paths are
caught in the source, so the embedding returns a plain pair for every
directory content); a file that parses but whose `model_id` is absent
or empty changes neither the registry nor the log — silently skipped —
while a malformed file leaves the registry alone but appends an error
log line. -/
theorem C10_load_skip (files : List DeviceConverters.DefFile) (path : String)
    (d : DeviceConverters.CapabilityDefinition)
    (hmid : d.model_id = none ∨ d.model_id = some "") :
    DeviceConverters.load_definitions (files ++ [DeviceConverters.DefFile.parsed path d]) =
      DeviceConverters.load_definitions files ∧
    (DeviceConverters.load_definitions (files ++ [DeviceConverters.DefFile.malformed path])).1 =
      (DeviceConverters.load_definitions files).1 ∧
    (DeviceConverters.load_definitions (files ++ [DeviceConverters.DefFile.malformed path])).2 =
      (DeviceConverters.load_definitions files).2 ++
        [(DeviceConverters.LogLevel.error, "Error loading definition file " ++ path)] := by
  refine ⟨?_, ?_, ?_⟩
  · rw [DeviceConverters.load_definitions, List.foldl_append]
    rcases hmid with h | h <;>
      simp [DeviceConverters.load_definitions, DeviceConverters.loadStep,
        DeviceConverters.readJson, h, show "".isEmpty = true from by decide]
  · rw [DeviceConverters.load_definitions, List.foldl_append]
    simp [DeviceConverters.load_definitions, DeviceConverters.loadStep,
      DeviceConverters.readJson]
  · rw [DeviceConverters.load_definitions, List.foldl_append]
    simp [DeviceConverters.load_definitions, DeviceConverters.loadStep,
      DeviceConverters.readJson]

theorem C10_load_skip_witness :
    (({} : DeviceConverters.CapabilityDefinition).model_id = none ∨
      ({} : DeviceConverters.CapabilityDefinition).model_id = some "") ∧
    DeviceConverters.load_definitions
        [DeviceConverters.DefFile.parsed "definitions/no_model.json" {}] =
      DeviceConverters.load_definitions [] :=
  ⟨Or.inl rfl,
   (C10_load_skip [] "definitions/no_model.json" {} (Or.inl rfl)).1⟩

open DeviceConverters in
/-- C3: `validate_state_value` accepts a binary value exactly when it is
a member of the allowed-values list; it accepts a numeric value exactly
when it `float`-parses (full Python float string syntax: signs,
decimals, exponents, underscores, Unicode digits and whitespace,
inf/nan) and passes whichever inclusive bound checks are present —
stated both through the embedded Python comparisons (on which `inf`
fails any upper bound, `-inf` any lower bound, and nan every present
bound) and, for finite parses, as exact rational inequalities; and it
rejects everything else: unknown state name, unparsable numeric value,
or a type tag other than binary/numeric. -/
theorem C3_validate_characterization
    (definitions : List (String × CapabilityDefinition))
    (model_id state_name : String) (value : Value) :
    (get_state_definition definitions model_id state_name = none →
      validate_state_value definitions model_id state_name value = false) ∧
    (∀ sd, get_state_definition definitions model_id state_name = some sd →
      (sd.type = "binary" →
        (validate_state_value definitions model_id state_name value = true ↔
          ∃ v ∈ sd.values, pyEq value v = true)) ∧
      (sd.type = "numeric" →
        (validate_state_value definitions model_id state_name value = true ↔
          ∃ v, pyFloat value = some v ∧
            (∀ lo, sd.value_min = some lo → PyFloat.geQ v lo = true) ∧
            (∀ hi, sd.value_max = some hi → PyFloat.leQ v hi = true))) ∧
      (sd.type = "numeric" → pyFloat value = none →
        validate_state_value definitions model_id state_name value = false) ∧
      (sd.type = "numeric" → ∀ num den, 0 < den →
        pyFloat value = some (.finite num den) →
        (validate_state_value definitions model_id state_name value = true ↔
          ((∀ lo, sd.value_min = some lo → lo ≤ (num : ℚ) / (den : ℚ)) ∧
           (∀ hi, sd.value_max = some hi → (num : ℚ) / (den : ℚ) ≤ hi)))) ∧
      (sd.type ≠ "binary" → sd.type ≠ "numeric" →
        validate_state_value definitions model_id state_name value = false)) := by
  constructor
  · intro h
    simp [validate_state_value, h]
  · intro sd hsd
    have hnum : sd.type = "numeric" →
        (validate_state_value definitions model_id state_name value = true ↔
          ∃ v, pyFloat value = some v ∧
            (∀ lo, sd.value_min = some lo → PyFloat.geQ v lo = true) ∧
            (∀ hi, sd.value_max = some hi → PyFloat.leQ v hi = true)) := by
      intro htype
      have hb : ¬ sd.type = "binary" := by rw [htype]; decide
      cases hq : pyFloat value with
      | none => simp [validate_state_value, hsd, htype, hb, hq]
      | some v =>
          cases hmin : sd.value_min with
          | none =>
              cases hmax : sd.value_max with
              | none => simp [validate_state_value, hsd, htype, hb, hq, hmin, hmax]
              | some hi => simp [validate_state_value, hsd, htype, hb, hq, hmin, hmax]
          | some lo =>
              cases hmax : sd.value_max with
              | none => simp [validate_state_value, hsd, htype, hb, hq, hmin, hmax]
              | some hi => simp [validate_state_value, hsd, htype, hb, hq, hmin, hmax]
    refine ⟨?_, hnum, ?_, ?_, ?_⟩
    · intro htype
      simp [validate_state_value, hsd, htype, List.any_eq_true]
    · intro htype hq
      have hb : ¬ sd.type = "binary" := by rw [htype]; decide
      simp [validate_state_value, hsd, htype, hb, hq]
    · intro htype num den hden hval
      rw [hnum htype]
      constructor
      · rintro ⟨v, hv, hlo, hhi⟩
        rw [hval] at hv
        obtain rfl : PyFloat.finite num den = v := Option.some.inj hv
        exact ⟨fun lo h => (geQ_finite_iff num den hden lo).mp (hlo lo h),
               fun hi h => (leQ_finite_iff num den hden hi).mp (hhi hi h)⟩
      · rintro ⟨h1, h2⟩
        exact ⟨.finite num den, hval,
          fun lo h => (geQ_finite_iff num den hden lo).mpr (h1 lo h),
          fun hi h => (leQ_finite_iff num den hden hi).mpr (h2 hi h)⟩
    · intro h1 h2
      simp [validate_state_value, hsd, h1, h2]

open DeviceConverters in
/-- The sample TuYa TS0001 definition shipped by
`_create_sample_definition` (`device_converters.py`, lines 34-61). -/
def sampleDefinition : CapabilityDefinition :=
  { model_id := some "TS0001", vendor := "TuYa", description := "Smart switch",
    supports := ["on_off", "brightness"],
    exposes :=
      [ { type := "binary", name := "state", property := "state", access := 7,
          values := [.vstr "ON", .vstr "OFF"] },
        { type := "numeric", name := "brightness", property := "brightness", access := 7,
          value_min := some 0, value_max := some 254 } ] }

/-- A one-entry registry holding the sample definition under its model id. -/
def defsW : List (String × DeviceConverters.CapabilityDefinition) :=
  [("TS0001", sampleDefinition)]

theorem C3_validate_witness :
    DeviceConverters.get_state_definition defsW "TS0001" "state" =
      some { type := "binary", name := "state", property := "state", access := 7,
             values := [Value.vstr "ON", Value.vstr "OFF"] } ∧
    DeviceConverters.validate_state_value defsW "TS0001" "state" (Value.vstr "ON") = true ∧
    pyFloat (Value.vstr "1e2") = some (PyFloat.finite 100 1) ∧
    DeviceConverters.validate_state_value defsW "TS0001" "brightness" (Value.vstr "1e2")
      = true := by
  refine ⟨by decide, ?_, by decide, ?_⟩
  · exact (((C3_validate_characterization defsW "TS0001" "state" (Value.vstr "ON")).2
        { type := "binary", name := "state", property := "state", access := 7,
          values := [Value.vstr "ON", Value.vstr "OFF"] } (by decide)).1 rfl).mpr
      ⟨Value.vstr "ON", by decide, by decide⟩
  · exact (((C3_validate_characterization defsW "TS0001" "brightness" (Value.vstr "1e2")).2
        { type := "numeric", name := "brightness", property := "brightness", access := 7,
          value_min := some 0, value_max := some 254 } (by decide)).2.1 rfl).mpr
      ⟨PyFloat.finite 100 1, by decide,
       fun lo h => by
         obtain rfl : (0 : ℚ) = lo := Option.some.inj h
         decide,
       fun hi h => by
         obtain rfl : (254 : ℚ) = hi := Option.some.inj h
         decide⟩

open DeviceConverters in
/-- C4: `identify_device` returns the exact model-id entry when the
registry has one; failing that, with a non-empty manufacturer (Python
treats an empty manufacturer string as not supplied), it returns the
first registry entry whose vendor matches the manufacturer
case-insensitively, and `none` when no vendor matches; with no (or an
empty) manufacturer it returns `none`. -/
theorem C4_identify_characterization
    (definitions : List (String × CapabilityDefinition))
    (model_id : String) (manufacturer : Option String) :
    (∀ d, lookupA definitions model_id = some d →
      identify_device definitions model_id manufacturer = some d) ∧
    (lookupA definitions model_id = none →
      (∀ m, manufacturer = some m → m.isEmpty = false →
        (∀ d, identify_device definitions model_id manufacturer = some d →
          ∃ i, ∃ hi : i < definitions.length,
            (definitions.get ⟨i, hi⟩).2 = d ∧
            (definitions.get ⟨i, hi⟩).2.vendor.toLower = m.toLower ∧
            ∀ j, ∀ hj : j < definitions.length, j < i →
              (definitions.get ⟨j, hj⟩).2.vendor.toLower ≠ m.toLower) ∧
        ((∃ p ∈ definitions, p.2.vendor.toLower = m.toLower) →
          ∃ d, identify_device definitions model_id manufacturer = some d) ∧
        ((∀ p ∈ definitions, p.2.vendor.toLower ≠ m.toLower) →
          identify_device definitions model_id manufacturer = none)) ∧
      (manufacturer = none → identify_device definitions model_id manufacturer = none) ∧
      (manufacturer = some "" → identify_device definitions model_id manufacturer = none)) := by
  constructor
  · intro d hd
    simp [identify_device, hd]
  · intro hnone
    refine ⟨?_, ?_, ?_⟩
    · rintro m rfl hm
      have hid : identify_device definitions model_id (some m) =
          (definitions.find? (fun p => p.2.vendor.toLower == m.toLower)).map Prod.snd := by
        simp [identify_device, hnone, hm]
      refine ⟨?_, ?_, ?_⟩
      · intro d hd
        rw [hid] at hd
        obtain ⟨p, hfind, hpd⟩ := Option.map_eq_some'.mp hd
        obtain ⟨i, hi, hget, hp, hfirst⟩ :=
          find?_first (fun p => p.2.vendor.toLower == m.toLower) definitions p hfind
        refine ⟨i, hi, ?_, ?_, ?_⟩
        · rw [hget]; exact hpd
        · rw [hget]; exact beq_iff_eq.mp (by simpa using hp)
        · intro j hj hji
          have := hfirst j hj hji
          simpa using this
      · rintro ⟨p, hmem, hmatch⟩
        rw [hid]
        cases hf : definitions.find? (fun p => p.2.vendor.toLower == m.toLower) with
        | none =>
            have := List.find?_eq_none.mp hf p hmem
            simp [hmatch] at this
        | some p' => exact ⟨p'.2, by simp⟩
      · intro hall
        rw [hid, List.find?_eq_none.mpr (fun p hp => by simp [hall p hp])]
        rfl
    · rintro rfl
      simp [identify_device, hnone]
    · rintro rfl
      simp [identify_device, hnone, show "".isEmpty = true from by decide]

theorem C4_identify_witness :
    lookupA defsW "TS0001" = some sampleDefinition ∧
    DeviceConverters.identify_device defsW "TS0001" none = some sampleDefinition ∧
    lookupA defsW "ZZZ" = none ∧
    DeviceConverters.identify_device defsW "ZZZ" none = none := by
  refine ⟨by decide, ?_, by decide, ?_⟩
  · exact (C4_identify_characterization defsW "TS0001" none).1 sampleDefinition (by decide)
  · exact ((C4_identify_characterization defsW "ZZZ" none).2 (by decide)).2.1 rfl

/-- C2: `update_device_state` fails when the device id is unknown or
the value fails capability validation for the device's model, and on
every failure path the returned state is the input state itself — in
particular both stored maps are exactly as before, no partial write;
when validation passes for a known device, the call succeeds and the
value is retrievable through `get_device_state`. -/
theorem C2_update_state_store (st : ZigbeeManager) (device_id state_name : String)
    (value : Value) (device : DeviceInfo) :
    (lookupA st.devices device_id = none →
      ZigbeeManager.update_device_state st device_id state_name value = (false, st)) ∧
    (lookupA st.devices device_id = some device →
      DeviceConverters.validate_state_value st.definitions device.model state_name value
        = false →
      ZigbeeManager.update_device_state st device_id state_name value = (false, st)) ∧
    (lookupA st.devices device_id = some device →
      DeviceConverters.validate_state_value st.definitions device.model state_name value
        = true →
      (ZigbeeManager.update_device_state st device_id state_name value).1 = true ∧
      lookupA (ZigbeeManager.get_device_state
          (ZigbeeManager.update_device_state st device_id state_name value).2 device_id)
        state_name = some value) := by
  refine ⟨?_, ?_, ?_⟩
  · intro h
    simp [ZigbeeManager.update_device_state, h]
  · intro h hv
    simp [ZigbeeManager.update_device_state, h, hv]
  · intro h hv
    constructor
    · simp [ZigbeeManager.update_device_state, h, hv]
    · simp [ZigbeeManager.update_device_state, h, hv, ZigbeeManager.get_device_state,
        lookupA_insertA_self]

/-- The device-map entry used by the concrete witness states. -/
def devW : DeviceInfo :=
  { model := "TS0001", manufacturer := "TuYa", definition := some sampleDefinition,
    status := "Joining", joined_at := 0 }

/-- A concrete manager holding one joined device of model TS0001,
with the sample registry loaded and the controller connected. -/
def stW : ZigbeeManager :=
  { devices := [("0x00124b0001", devW)],
    device_states := [("0x00124b0001", [("state", Value.vnull), ("brightness", Value.vnull)])],
    connected := true,
    definitions := defsW,
    app_devices := ["0x00124b0001"] }

theorem C2_update_state_store_witness :
    lookupA stW.devices "0x00124b0001" = some devW ∧
    DeviceConverters.validate_state_value stW.definitions devW.model "state"
      (Value.vstr "ON") = true ∧
    (ZigbeeManager.update_device_state stW "0x00124b0001" "state" (Value.vstr "ON")).1
      = true ∧
    lookupA (ZigbeeManager.get_device_state
        (ZigbeeManager.update_device_state stW "0x00124b0001" "state" (Value.vstr "ON")).2
        "0x00124b0001") "state" = some (Value.vstr "ON") := by
  have h := (C2_update_state_store stW "0x00124b0001" "state" (Value.vstr "ON") devW).2.2
    (by decide) (by decide)
  exact ⟨by decide, by decide, h.1, h.2⟩

/-- C5: a successful `permit_join(d)` at time `t` returns true and
records end-time `t + d`; `is_permit_join_active` queried at
`now ≤ t + d` on the state the call left behind reports true, and
queried at `now > t + d` reports false and leaves the active flag
cleared whether or not the deferred `_disable_permit_join` callback ran
in between (and whether or not that callback's own radio call
completed). -/
theorem C5_permit_join_window (st : ZigbeeManager) (t d now : ℤ)
    (callbackRan radioOk2 : Bool) (hconn : st.connected = true) :
    (ZigbeeManager.permit_join st t d true).1 = true ∧
    (ZigbeeManager.permit_join st t d true).2.permit_join_end_time = t + d ∧
    (now ≤ t + d →
      (ZigbeeManager.is_permit_join_active
        (ZigbeeManager.permit_join st t d true).2 now).1 = true) ∧
    (now > t + d →
      (ZigbeeManager.is_permit_join_active
        (if callbackRan then
          ZigbeeManager.disable_permit_join (ZigbeeManager.permit_join st t d true).2 radioOk2
        else (ZigbeeManager.permit_join st t d true).2) now).1 = false ∧
      (ZigbeeManager.is_permit_join_active
        (if callbackRan then
          ZigbeeManager.disable_permit_join (ZigbeeManager.permit_join st t d true).2 radioOk2
        else (ZigbeeManager.permit_join st t d true).2) now).2.permit_join_active
        = false) := by
  refine ⟨?_, ?_, ?_, ?_⟩
  · simp [ZigbeeManager.permit_join, hconn]
  · simp [ZigbeeManager.permit_join, hconn]
  · intro hle
    have hng : ¬ now > t + d := not_lt.mpr hle
    simp [ZigbeeManager.permit_join, hconn, ZigbeeManager.is_permit_join_active, hng]
  · intro hgt
    cases callbackRan with
    | false =>
        constructor <;>
          simp [ZigbeeManager.permit_join, hconn, ZigbeeManager.is_permit_join_active, hgt]
    | true =>
        cases radioOk2 with
        | false =>
            constructor <;>
              simp [ZigbeeManager.permit_join, hconn, ZigbeeManager.disable_permit_join,
                ZigbeeManager.is_permit_join_active, hgt]
        | true =>
            constructor <;>
              simp [ZigbeeManager.permit_join, hconn, ZigbeeManager.disable_permit_join,
                ZigbeeManager.is_permit_join_active, hgt]

theorem C5_permit_join_window_witness :
    stW.connected = true ∧
    (ZigbeeManager.permit_join stW 0 60 true).1 = true ∧
    (ZigbeeManager.permit_join stW 0 60 true).2.permit_join_end_time = 0 + 60 ∧
    (ZigbeeManager.is_permit_join_active
      (ZigbeeManager.permit_join stW 0 60 true).2 60).1 = true ∧
    (ZigbeeManager.is_permit_join_active
      (ZigbeeManager.permit_join stW 0 60 true).2 61).1 = false := by
  have h60 := C5_permit_join_window stW 0 60 60 false true rfl
  have h61 := C5_permit_join_window stW 0 60 61 false true rfl
  exact ⟨rfl, h60.1, h60.2.1, h60.2.2.1 (by decide), (h61.2.2.2 (by decide)).1⟩

/-- C6: each of `_handle_device_joined`, `_handle_device_leave` and
`remove_device` preserves the invariant that an id is present in the
device map exactly when it is present in the per-device state map:
both entries are added or deleted together. -/
theorem C6_maps_consistent_preserved (st : ZigbeeManager) (ieee : String)
    (model manufacturer : Option String) (now : ℤ) (leaveOk : Bool)
    (h : ZigbeeManager.mapsConsistent st) :
    ZigbeeManager.mapsConsistent
      (ZigbeeManager.handle_device_joined st ieee model manufacturer now) ∧
    ZigbeeManager.mapsConsistent (ZigbeeManager.handle_device_leave st ieee) ∧
    ZigbeeManager.mapsConsistent ((ZigbeeManager.remove_device st ieee leaveOk).2) := by
  refine ⟨?_, ?_, ?_⟩
  · intro i
    simp only [ZigbeeManager.handle_device_joined]
    rw [containsKey_insertA_iff, containsKey_insertA_iff]
    exact or_congr Iff.rfl (h i)
  · intro i
    simp only [ZigbeeManager.handle_device_leave]
    by_cases hc : containsKey st.devices ieee = true
    · simp only [hc, if_true]
      rw [containsKey_eraseA_iff, containsKey_eraseA_iff]
      exact and_congr Iff.rfl (h i)
    · simp only [hc, if_false]
      exact h i
  · intro i
    simp only [ZigbeeManager.remove_device]
    by_cases hc : st.app_devices.contains ieee = true
    · cases leaveOk with
      | true =>
          simp only [hc, if_true]
          rw [containsKey_eraseA_iff, containsKey_eraseA_iff]
          exact and_congr Iff.rfl (h i)
      | false =>
          simp only [hc, if_true, if_false]
          exact h i
    · simp only [hc, if_false]
      exact h i

theorem C6_maps_consistent_preserved_witness :
    ZigbeeManager.mapsConsistent stW ∧
    ZigbeeManager.mapsConsistent
      (ZigbeeManager.handle_device_joined stW "0xnew" (some "TS0001") (some "TuYa") 5) ∧
    ZigbeeManager.mapsConsistent (ZigbeeManager.handle_device_leave stW "0x00124b0001") ∧
    ZigbeeManager.mapsConsistent
      ((ZigbeeManager.remove_device stW "0x00124b0001" true).2) := by
  have hbase : ZigbeeManager.mapsConsistent stW := by
    intro i
    simp only [stW, ZigbeeManager.mapsConsistent, containsKey_cons, containsKey_nil]
  have h := C6_maps_consistent_preserved stW "0xnew" (some "TS0001") (some "TuYa") 5 true hbase
  have h2 := C6_maps_consistent_preserved stW "0x00124b0001" (some "TS0001") (some "TuYa") 5
    true hbase
  exact ⟨hbase, h.1, h2.2.1, h2.2.2⟩

/-- C9 (amended): each lifecycle handler appends exactly one message,
and the JSON bodies have these shapes: `device_joined` publishes a body
with top-level keys `type` and `device`, the four fields
`ieee_address`, `model`, `manufacturer`, `supported_features` sitting
inside the nested `device` object; `device_leave` and `device_removed`
publish exactly `{ieee_address}`; `device_announce` publishes
`{ieee_address, status}`. -/
theorem C9_lifecycle_payload_shapes (st : ZigbeeManager) (ieee : String)
    (model manufacturer : Option String) (now : ℤ) :
    ((ZigbeeManager.handle_device_joined st ieee model manufacturer now).published.length
      = st.published.length + 1 ∧
     ((ZigbeeManager.handle_device_joined st ieee model manufacturer now).published.getLast?).map
        ZigbeeManager.publishedShape =
      some ("zigbee2mqtt/bridge/event/device_joined", ["type", "device"],
        ["ieee_address", "model", "manufacturer", "supported_features"])) ∧
    (containsKey st.devices ieee = true →
      (ZigbeeManager.handle_device_leave st ieee).published.length
        = st.published.length + 1 ∧
      ((ZigbeeManager.handle_device_leave st ieee).published.getLast?).map
         ZigbeeManager.publishedShape =
       some ("zigbee2mqtt/bridge/event/device_leave", ["ieee_address"], [])) ∧
    (st.app_devices.contains ieee = true →
      (ZigbeeManager.remove_device st ieee true).2.published.length
        = st.published.length + 1 ∧
      ((ZigbeeManager.remove_device st ieee true).2.published.getLast?).map
         ZigbeeManager.publishedShape =
       some ("zigbee2mqtt/bridge/event/device_removed", ["ieee_address"], [])) ∧
    (containsKey st.devices ieee = true →
      (ZigbeeManager.handle_device_relays st "device_announce" ieee
        Json.null Json.null).published.length = st.published.length + 1 ∧
      ((ZigbeeManager.handle_device_relays st "device_announce" ieee
          Json.null Json.null).published.getLast?).map
         ZigbeeManager.publishedShape =
       some ("zigbee2mqtt/bridge/event/device_announce", ["ieee_address", "status"], [])) := by
  refine ⟨⟨?_, ?_⟩, ?_, ?_, ?_⟩
  · simp [ZigbeeManager.handle_device_joined]
  · simp [ZigbeeManager.handle_device_joined, ZigbeeManager.publishedShape,
      Json.keys, Json.getField, lookupA]
  · intro hc
    constructor
    · simp [ZigbeeManager.handle_device_leave, hc]
    · simp [ZigbeeManager.handle_device_leave, hc, ZigbeeManager.publishedShape,
        Json.keys, Json.getField, lookupA]
  · intro hc
    have hm : ieee ∈ st.app_devices := by simpa using hc
    constructor
    · simp [ZigbeeManager.remove_device, hm]
    · simp [ZigbeeManager.remove_device, hm, ZigbeeManager.publishedShape,
        Json.keys, Json.getField, lookupA]
  · intro hc
    constructor
    · simp [ZigbeeManager.handle_device_relays, hc]
    · simp [ZigbeeManager.handle_device_relays, hc, ZigbeeManager.publishedShape,
        Json.keys, Json.getField, lookupA]

theorem C9_lifecycle_payload_shapes_witness :
    containsKey stW.devices "0x00124b0001" = true ∧
    stW.app_devices.contains "0x00124b0001" = true ∧
    ((ZigbeeManager.handle_device_leave stW "0x00124b0001").published.getLast?).map
       ZigbeeManager.publishedShape =
     some ("zigbee2mqtt/bridge/event/device_leave", ["ieee_address"], []) ∧
    ((ZigbeeManager.remove_device stW "0x00124b0001" true).2.published.getLast?).map
       ZigbeeManager.publishedShape =
     some ("zigbee2mqtt/bridge/event/device_removed", ["ieee_address"], []) := by
  have h := C9_lifecycle_payload_shapes stW "0x00124b0001" (some "TS0001") (some "TuYa") 0
  exact ⟨by decide, by decide, (h.2.1 (by decide)).2, (h.2.2.1 (by decide)).2⟩

/-- C9 counterexample: at a concrete join event, the body the code
publishes on the `device_joined` topic does not have the claimed flat
key set `ieee_address, model, manufacturer, supported_features`; its
top-level keys are `type` and `device`. -/
theorem C9_counterexample :
    Json.keys (ZigbeeManager.firstPublished
      (ZigbeeManager.handle_device_joined {} "0x00124b0001"
        (some "TS0001") (some "TuYa") 0)).2
      ≠ ["ieee_address", "model", "manufacturer", "supported_features"] := by
  decide
